import Mathlib

/-!
Verification of the map-reduce entity-merge engine of `neo4j-db-utils`
(`neo4j_db_utils/import_defs.py` and `neo4j_db_utils/build_import.py`).

Strings are embedded as lists of Unicode code points (`List Nat`), so
Python `str.translate` tables become pointwise functions on code points.
Python exceptions are embedded as an explicit error type returned through
`Except`.  All definitions follow the Python 3 branch of the source
(`PYTHON_BASE_VERSION == 3`).
-/

/-- Code points of a Lean string literal, used to write concrete
Python strings such as `"NODE_LABEL"` in the embedding. -/
def codes (s : String) : List Nat := s.data.map Char.toNat

/-- The `NONPRINTABLE` set of `import_defs.py` line 185:
`set('\n\r\x0b\x0c')` unioned with code points `0..127` minus
`string.printable`.  `string.printable` holds code points 9–13 and
32–126, so the union is `{0..8} ∪ {10..31} ∪ {127}` (tab, code 9, is
excluded). -/
def nonprintable (c : Nat) : Prop := c ≤ 8 ∨ (10 ≤ c ∧ c ≤ 31) ∨ c = 127

instance : DecidablePred nonprintable := fun c =>
  inferInstanceAs (Decidable (c ≤ 8 ∨ (10 ≤ c ∧ c ≤ 31) ∨ c = 127))

/-- The translation table `XLATE` of `import_defs.py` lines 187–189:
every `NONPRINTABLE` code point maps to `chr(183)` (the middle dot) and
tab maps to a space; all other code points are not in the table and are
left unchanged by `str.translate`. -/
def xlate (c : Nat) : Nat := if c = 9 then 32 else if nonprintable c then 183 else c

/-- `cleanup_text` of `import_defs.py` lines 190–192 applied to a
non-`None` string: `text.translate(XLATE)`. -/
def cleanup_text (s : List Nat) : List Nat := s.map xlate

/-- `cleanup_text` including its `if text is not None else None` guard:
`None` maps to `None`, a string is translated through `XLATE`. -/
def cleanup_text_opt : Option (List Nat) → Option (List Nat)
  | Option.none => Option.none
  | Option.some s => Option.some (cleanup_text s)

/-- The translation table `XLATE_IDS` of `import_defs.py` lines 194–196:
`NONPRINTABLE` code points map to the middle dot, while space and tab map
to the empty string, i.e. are deleted.  The result of translating one
code point is therefore a (possibly empty) list of code points. -/
def xlate_ids (c : Nat) : List Nat :=
  if c = 32 ∨ c = 9 then [] else if nonprintable c then [183] else [c]

/-- `cleanup_id` of `import_defs.py` lines 198–201 applied to a
non-`None` string: `text.translate(XLATE_IDS)`. -/
def cleanup_id (s : List Nat) : List Nat := s.flatMap xlate_ids

/-- A Python attribute value as used by `Node._merge_values` and
`Node.validate`: `None`, a string, or an integer. -/
inductive PyVal where
  | none
  | str (s : List Nat)
  | int (i : Int)
deriving DecidableEq, Repr

/-- The exceptions raised by the code under verification.  `mergeError`
records the data interpolated into the message of `import_defs.py` line
78 (`self_val`, `other_val`, the node type and the attribute);
`validationError` records the data of line 62 (node id, node type and
the missing attribute).  `assertionError` is a failed `assert`,
`typeError` a Python `TypeError`, and `exception` a plain `Exception`
raised by the configuration checks of `build_import.run`. -/
inductive PyErr where
  | mergeError (node_type attr_name : List Nat) (self_val other_val : PyVal)
  | validationError (node_id node_type attr_name : List Nat)
  | assertionError
  | typeError
  | exception
deriving DecidableEq, Repr

/-- A cell value of a `to_csv_row()` result: Python `str`, `bool`,
`list` of strings, or `int` (any other type falls to the generic
`str(row[i])` branch of `write_nodes`; `int` stands for that branch). -/
inductive Cell where
  | str (s : List Nat)
  | bool (b : Bool)
  | list (ss : List (List Nat))
  | int (i : Int)
deriving DecidableEq, Repr

/-- A concrete `Node` instance (`import_defs.py` lines 26–78).  The
abstract methods are embedded as data: `node_type` is the result of
`get_node_type()`, `node_id` of `get_node_id()`, `csv_row` of
`to_csv_row()`.  `attrs` maps each attribute name of the instance to its
value (a Python `None` field is stored as `PyVal.none`), and `required`
is the `REQUIRED_ATTRS` list of the instance's class (empty when the
class declares none). -/
structure PyNode where
  node_type : List Nat
  node_id : List Nat
  attrs : List (List Nat × PyVal)
  required : List (List Nat)
  csv_row : List Cell
deriving DecidableEq, Repr, Inhabited

/-- `getattr(n, a)` for an attribute stored in `attrs`. -/
def get_attr (n : PyNode) (a : List Nat) : PyVal := ((n.attrs.lookup a).getD PyVal.none)

/-- `Node._merge_values` of `import_defs.py` lines 64–78: compare the
attribute on `self` and `other`; keep the common value when equal, the
present value when exactly one side is `None`, and raise `MergeError`
(naming the node type, the attribute and both values) when both are
present and differ. -/
def merge_values (self other : PyNode) (attr_name : List Nat) : Except PyErr PyVal :=
  let self_val := get_attr self attr_name
  let other_val := get_attr other attr_name
  if self_val = other_val then Except.ok self_val
  else if other_val = PyVal.none then Except.ok self_val
  else if self_val = PyVal.none then Except.ok other_val
  else Except.error (PyErr.mergeError self.node_type attr_name self_val other_val)

/-- The loop body of `Node.validate` (`import_defs.py` lines 58–62):
walk the `REQUIRED_ATTRS` list in order and raise `ValidationError`
(naming the node id, the node type and the attribute) at the first
attribute whose value is `None` or the empty string. -/
def validate_attrs (n : PyNode) : List (List Nat) → Except PyErr Unit
  | [] => Except.ok ()
  | a :: rest =>
    let value := get_attr n a
    if value = PyVal.none ∨ value = PyVal.str [] then
      Except.error (PyErr.validationError n.node_id n.node_type a)
    else validate_attrs n rest

/-- `Node.validate` of `import_defs.py` lines 51–62. -/
def node_validate (n : PyNode) : Except PyErr Unit := validate_attrs n n.required

/-- Claim C5: `_merge_values` returns the common value when both
instances hold equal values, returns the present value when exactly one
side is `None`, and raises `MergeError` naming the node type, the
attribute and both conflicting values when both are present and
differ. -/
theorem c5_merge_values_cases (self other : PyNode) (a : List Nat) :
    (get_attr self a = get_attr other a →
      merge_values self other a = Except.ok (get_attr self a)) ∧
    (get_attr self a ≠ PyVal.none → get_attr other a = PyVal.none →
      merge_values self other a = Except.ok (get_attr self a)) ∧
    (get_attr self a = PyVal.none → get_attr other a ≠ PyVal.none →
      merge_values self other a = Except.ok (get_attr other a)) ∧
    (get_attr self a ≠ PyVal.none → get_attr other a ≠ PyVal.none →
      get_attr self a ≠ get_attr other a →
      merge_values self other a =
        Except.error (PyErr.mergeError self.node_type a
          (get_attr self a) (get_attr other a))) := by
  refine ⟨?_, ?_, ?_, ?_⟩ <;> intros <;> simp_all [merge_values]

/-- Instantiation of `c5_merge_values_cases` at concrete nodes: merging
attribute `x` with values `"v"` and `"w"` raises the conflict error. -/
theorem c5_merge_values_cases_witness :
    merge_values
      { node_type := codes "T", node_id := codes "n", attrs := [(codes "x", PyVal.str (codes "v"))],
        required := [], csv_row := [] }
      { node_type := codes "T", node_id := codes "n", attrs := [(codes "x", PyVal.str (codes "w"))],
        required := [], csv_row := [] }
      (codes "x") =
    Except.error (PyErr.mergeError (codes "T") (codes "x")
      (PyVal.str (codes "v")) (PyVal.str (codes "w"))) :=
  (c5_merge_values_cases _ _ _).2.2.2 (by decide) (by decide) (by decide)

/-- Each code point produced by `xlate` is a fixed point of `xlate`:
the substitution characters 32 (space) and 183 (middle dot) are not
themselves substituted, and an unchanged code point stays unchanged. -/
theorem xlate_idempotent (c : Nat) : xlate (xlate c) = xlate c := by
  simp only [xlate, nonprintable]
  split_ifs <;> omega

/-- Claim C10: `cleanup_text` is idempotent on any string and on
`None`. -/
theorem c10_cleanup_text_idempotent (t : Option (List Nat)) :
    cleanup_text_opt (cleanup_text_opt t) = cleanup_text_opt t := by
  cases t with
  | none => rfl
  | some s =>
    simp only [cleanup_text_opt, cleanup_text, List.map_map, Option.some.injEq]
    exact List.map_congr_left (fun c _ => xlate_idempotent c)

/-- The relationship identity tuple `RelId` of `import_defs.py` lines
118–119: a named tuple `(source_type, source_id, rel_type, dest_type,
dest_id)` of strings. -/
structure RelId where
  source_type : List Nat
  source_id : List Nat
  rel_type : List Nat
  dest_type : List Nat
  dest_id : List Nat
deriving DecidableEq, Repr, Inhabited

/-- A concrete `Relationship` instance (`import_defs.py` lines 82–112):
`rel_id` is the result of `get_rel_id()` and `csv_row` the result of
`to_csv_row()`. -/
structure PyRel where
  rel_id : RelId
  csv_row : List Cell
deriving DecidableEq, Repr, Inhabited

/-- A `SimpleRelationship` instance (`import_defs.py` lines 121–144): it
subclasses `RelId`, `get_rel_id` returns the instance itself and
`to_csv_row` returns `[source_id, dest_id, rel_type]`. -/
def simple_relationship (r : RelId) : PyRel :=
  { rel_id := r,
    csv_row := [Cell.str r.source_id, Cell.str r.dest_id, Cell.str r.rel_type] }

/-- `SimpleRelationship.reduce` of `import_defs.py` lines 129–131:
`assert self == other; return self`.  The instances are tuples, so the
assertion compares the identity tuples componentwise; a failed `assert`
raises `AssertionError`. -/
def simple_relationship_reduce (self other : RelId) : Except PyErr RelId :=
  if self = other then Except.ok self else Except.error PyErr.assertionError

/-- Whether an `Except` result is a raised `MergeError`. -/
def is_merge_error {α : Type} : Except PyErr α → Bool
  | Except.error (PyErr.mergeError _ _ _ _) => true
  | _ => false

/-- The accumulator of `map_and_reduce` (`build_import.py` lines 18–24):
the ordered node and relationship lists, the dictionaries mapping a
node id (note: the id alone, not the `(type, id)` pair) and a `RelId` to
a position, and the two reduction counters. -/
structure MRState where
  nodes : List PyNode
  nodes_to_index : List (List Nat × Nat)
  relationships : List PyRel
  rels_to_index : List (RelId × Nat)
  num_node_reductions : Nat
  num_edge_reductions : Nat
deriving DecidableEq, Repr

def mr_init : MRState :=
  { nodes := [], nodes_to_index := [], relationships := [], rels_to_index := [],
    num_node_reductions := 0, num_edge_reductions := 0 }

/-- The node branch of `map_and_reduce` (`build_import.py` lines 27–36):
the dictionary key is `node.get_node_id()` alone.  On a hit, the stored
node at that position is replaced by `stored.reduce(node)`; otherwise
the node is appended and its position indexed.  `nreduce` is the
user-supplied `Node.reduce` implementation, which may raise. -/
def proc_node (nreduce : PyNode → PyNode → Except PyErr PyNode)
    (st : MRState) (node : PyNode) : Except PyErr MRState :=
  match st.nodes_to_index.lookup node.node_id with
  | Option.some idx =>
    match nreduce (st.nodes.getD idx default) node with
    | Except.error e => Except.error e
    | Except.ok merged =>
      Except.ok { st with nodes := st.nodes.set idx merged,
                          num_node_reductions := st.num_node_reductions + 1 }
  | Option.none =>
    Except.ok { st with nodes := st.nodes ++ [node],
                        nodes_to_index := (node.node_id, st.nodes.length) :: st.nodes_to_index }

/-- The relationship branch of `map_and_reduce` (`build_import.py`
lines 37–45).  On a duplicate `rel_id` the source executes
`rels_to_index[rel_id] = relationships[rel_id].reduce(rel)` (line 41):
`relationships` is a Python list and `rel_id` a `RelId` tuple, so the
subscript raises `TypeError` before `reduce` is ever called (and the
statement would in any case store the result into the index dictionary,
not back into the list). -/
def proc_rel (st : MRState) (rel : PyRel) : Except PyErr MRState :=
  match st.rels_to_index.lookup rel.rel_id with
  | Option.some _ => Except.error PyErr.typeError
  | Option.none =>
    Except.ok { st with relationships := st.relationships ++ [rel],
                        rels_to_index := (rel.rel_id, st.relationships.length) :: st.rels_to_index }

/-- One iteration of the outer loop of `map_and_reduce` (`build_import.py`
lines 25–45), applied to the `(new_nodes, new_relationships)` pair
returned by `mr.map_input(input)` for one raw record. -/
def proc_input (nreduce : PyNode → PyNode → Except PyErr PyNode)
    (st : MRState) (inp : List PyNode × List PyRel) : Except PyErr MRState := do
  let st1 ← inp.1.foldlM (proc_node nreduce) st
  inp.2.foldlM proc_rel st1

/-- `map_and_reduce` of `build_import.py` lines 18–51.  The generator
and `mr.map_input` are embedded together: `inputs` is the list of
`(new_nodes, new_relationships)` pairs that `map_input` returns, one per
raw record.  The progress printing (lines 47–50) is output-only and is
omitted. -/
def map_and_reduce (nreduce : PyNode → PyNode → Except PyErr PyNode)
    (inputs : List (List PyNode × List PyRel)) : Except PyErr (List PyNode × List PyRel) := do
  let st ← inputs.foldlM (proc_input nreduce) mr_init
  Except.ok (st.nodes, st.relationships)

/-- The distinct `(node_type, node_id)` pairs among all candidate nodes
produced by the mapping function, stated from the claim. -/
def distinct_type_id_pairs (inputs : List (List PyNode × List PyRel)) : List (List Nat × List Nat) :=
  ((inputs.flatMap Prod.fst).map (fun n => (n.node_type, n.node_id))).dedup

/-- Claim C1 (evaluation at the failing input): two candidate nodes with
node id `"x"` but distinct types `"A"` and `"B"` form two distinct
`(node_type, node_id)` pairs, yet `map_and_reduce` — whose index is
keyed by the node id alone — merges them into a single output node, so
the output node count is 1, not 2.  The user reduce used here keeps the
stored node. -/
theorem c1_dedup_keyed_by_id_only :
    (map_and_reduce (fun a _ => Except.ok a)
        [([{ node_type := codes "A", node_id := codes "x", attrs := [], required := [],
             csv_row := [] },
           { node_type := codes "B", node_id := codes "x", attrs := [], required := [],
             csv_row := [] }], [])]).map (fun p => p.1.length) = Except.ok 1 ∧
    (distinct_type_id_pairs
        [([{ node_type := codes "A", node_id := codes "x", attrs := [], required := [],
             csv_row := [] },
           { node_type := codes "B", node_id := codes "x", attrs := [], required := [],
             csv_row := [] }], [])]).length = 2 := by
  constructor
  · rfl
  · decide

/-- Claim C2 (evaluation at the failing input): feeding the same
`SimpleRelationship` twice makes the second occurrence hit the
`rels_to_index` dictionary, and line 41 of `build_import.py` then raises
`TypeError` (a Python list subscripted with a `RelId` tuple) instead of
replacing the stored relationship with the reduced one. -/
theorem c2_rel_duplicate_raises_type_error :
    map_and_reduce (fun a _ => Except.ok a)
      [([], [simple_relationship
               { source_type := codes "A", source_id := codes "s", rel_type := codes "knows",
                 dest_type := codes "B", dest_id := codes "d" },
             simple_relationship
               { source_type := codes "A", source_id := codes "s", rel_type := codes "knows",
                 dest_type := codes "B", dest_id := codes "d" }])] =
    Except.error PyErr.typeError := by
  rfl

/-- Claim C8 (amended): `SimpleRelationship.reduce` returns the instance
unchanged when the two identity tuples are equal, and fails with
`AssertionError` — not `MergeError` — when they are unequal. -/
theorem c8_simple_relationship_reduce_cases (a b : RelId) :
    (a = b → simple_relationship_reduce a b = Except.ok a) ∧
    (a ≠ b → simple_relationship_reduce a b = Except.error PyErr.assertionError) := by
  constructor <;> intro h <;> simp [simple_relationship_reduce, h]

/-- Instantiation of `c8_simple_relationship_reduce_cases` at concrete
unequal identities. -/
theorem c8_simple_relationship_reduce_cases_witness :
    simple_relationship_reduce
      { source_type := codes "A", source_id := codes "s1", rel_type := codes "knows",
        dest_type := codes "B", dest_id := codes "d" }
      { source_type := codes "A", source_id := codes "s2", rel_type := codes "knows",
        dest_type := codes "B", dest_id := codes "d" } =
    Except.error PyErr.assertionError :=
  (c8_simple_relationship_reduce_cases _ _).2 (by decide)

/-- Claim C8 (counterexample to the claim as stated): on unequal
identities `reduce` raises `AssertionError`, which is not a
`MergeError`. -/
theorem c8_assertion_not_merge_error :
    simple_relationship_reduce
      { source_type := codes "A", source_id := codes "s1", rel_type := codes "knows",
        dest_type := codes "B", dest_id := codes "d" }
      { source_type := codes "A", source_id := codes "s2", rel_type := codes "knows",
        dest_type := codes "B", dest_id := codes "d" } =
      Except.error PyErr.assertionError ∧
    is_merge_error (α := RelId)
      (Except.error PyErr.assertionError) = false := by
  constructor
  · rfl
  · rfl

/-- `pat.isPrefixOf s` on code-point lists, written out to keep the
development self-contained. -/
def starts_with : List Nat → List Nat → Bool
  | [], _ => true
  | _ :: _, [] => false
  | p :: ps, c :: cs => p = c && starts_with ps cs

/-- Python's `pat in s` substring test, used by the configuration checks
of `build_import.run` (lines 153 and 156). -/
def contains_sub (pat : List Nat) : List Nat → Bool
  | [] => starts_with pat []
  | c :: cs => starts_with pat (c :: cs) || contains_sub pat cs

/-- Python's `s.replace(pat, repl)` for a non-empty `pat`, scanning left
to right and replacing non-overlapping occurrences.  The source only
calls it with the literal patterns `"NODE_LABEL"` and `"EDGE_LABEL"`,
both non-empty, so the empty-pattern behaviour of Python (inserting
`repl` between characters) is irrelevant and the guard below simply
leaves the string unchanged for an empty pattern. -/
def replace_go (pat repl : List Nat) : List Nat → Nat → List Nat
  | [], _ => []
  | _ :: cs, Nat.succ k => replace_go pat repl cs k
  | c :: cs, 0 =>
    if pat ≠ [] ∧ starts_with pat (c :: cs) then
      repl ++ replace_go pat repl cs (pat.length - 1)
    else
      c :: replace_go pat repl cs 0

/-- See the doc comment above: `replace_go pat repl s 0`, where the
counter skips the characters already consumed by a replaced
occurrence. -/
def replace_sub (pat repl s : List Nat) : List Nat := replace_go pat repl s 0

/-- The cell serialization loop of `write_nodes` (`build_import.py`
lines 86–94): a list cell is joined with `';'` and passed through
`cleanup_text`, a boolean renders as `'true'`/`'false'`, a string cell
passes through `cleanup_text`, and any other value renders via
`str(...)`. -/
def transform_cell : Cell → List Nat
  | Cell.list ss => cleanup_text (List.intercalate [59] ss)
  | Cell.bool b => if b then codes "true" else codes "false"
  | Cell.str s => cleanup_text s
  | Cell.int i => codes (toString i)

/-- An `OutputFile` of `build_import.py` lines 54–67: the stream id
`sid` records the order in which the file was opened (it models the
identity of the underlying `open` handle), `fname` the resolved file
name, `header` the header row written through `ofile.writer.writerow`
(which bypasses the row counter), `data` the rows written through
`ofile.writerow`, and `rows` the counter those writes increment. -/
structure OutFile where
  sid : Nat
  fname : List Nat
  header : List (List Nat)
  data : List (List (List Nat))
  rows : Nat
deriving DecidableEq, Repr

/-- Append one data row to an open `OutputFile`
(`OutputFile.writerow`, `build_import.py` lines 61–63). -/
def add_row (f : OutFile) (row : List (List Nat)) : OutFile :=
  { f with data := f.data ++ [row], rows := f.rows + 1 }

/-- Write a row into the file stored under key `k` of the
`output_files` dictionary, leaving every other entry unchanged. -/
def update_file {κ : Type} [DecidableEq κ] (files : List (κ × OutFile)) (k : κ)
    (row : List (List Nat)) : List (κ × OutFile) :=
  files.map (fun p => if p.1 = k then (p.1, add_row p.2 row) else p)

/-- The state of a `write_nodes` run: the `output_files` dictionary in
insertion order (Python 3.7+ dictionaries preserve it, and
`output_files.values()` in the `finally` block iterates it), the trace
of opened stream ids in open order, and the global trace of data rows
in the order `ofile.writerow` was called. -/
structure WNState where
  files : List (List Nat × OutFile)
  opened : List Nat
  written : List (List (List Nat))
deriving DecidableEq, Repr

def wn_init : WNState := { files := [], opened := [], written := [] }

/-- The per-node body of `write_nodes` (`build_import.py` lines 73–95)
after the newline assertion: open (and write the header of) a new
stream on the first encounter of the node's type, then serialize the
node's `to_csv_row()` cells and write the data row. -/
def wn_step (node_hdr : List Nat → List (List Nat)) (tmpl : List Nat)
    (st : WNState) (node : PyNode) : WNState :=
  let row := node.csv_row.map transform_cell
  match st.files.lookup node.node_type with
  | Option.some _ =>
    { st with files := update_file st.files node.node_type row,
              written := st.written ++ [row] }
  | Option.none =>
    let fname := replace_sub (codes "NODE_LABEL") node.node_type tmpl
    let f : OutFile := { sid := st.opened.length, fname := fname,
                         header := node_hdr node.node_type, data := [row], rows := 1 }
    { st with files := st.files ++ [(node.node_type, f)],
              opened := st.opened ++ [st.opened.length],
              written := st.written ++ [row] }

/-- The `try` body of `write_nodes`: process the nodes in order and
abort with `AssertionError` when a node id contains a newline
(`build_import.py` line 76), returning the state reached so far so the
`finally` block can close the streams already opened. -/
def wn_loop (node_hdr : List Nat → List (List Nat)) (tmpl : List Nat) :
    List PyNode → WNState → Except PyErr Unit × WNState
  | [], st => (Except.ok (), st)
  | n :: rest, st =>
    if 10 ∈ n.node_id then (Except.error PyErr.assertionError, st)
    else wn_loop node_hdr tmpl rest (wn_step node_hdr tmpl st n)

/-- `write_nodes` of `build_import.py` lines 70–98.  The third component
is the list of stream ids closed by the `finally` block, which calls
`ofile.close()` once for each value of the `output_files` dictionary on
both the normal and the exceptional exit. -/
def write_nodes (node_hdr : List Nat → List (List Nat)) (nodes : List PyNode)
    (tmpl : List Nat) : Except PyErr Unit × WNState × List Nat :=
  let r := wn_loop node_hdr tmpl nodes wn_init
  (r.1, r.2, r.2.files.map (fun p => p.2.sid))

/-- The partition key of `write_relationships`:
`(rel_type, source_type, dest_type)`. -/
abbrev RelKey := List Nat × List Nat × List Nat

/-- The state of a `write_relationships` run, mirroring `WNState`. -/
structure WRState where
  files : List (RelKey × OutFile)
  opened : List Nat
  written : List (List (List Nat))
deriving DecidableEq, Repr

def wr_init : WRState := { files := [], opened := [], written := [] }

/-- The composite label substituted for `EDGE_LABEL`
(`build_import.py` lines 108–112): `"%s_%s_to_%s" % (rel_type,
source_type, dest_type)`. -/
def edge_label (rid : RelId) : List Nat :=
  rid.rel_type ++ codes "_" ++ rid.source_type ++ codes "_to_" ++ rid.dest_type

/-- The per-relationship body of `write_relationships`
(`build_import.py` lines 104–122): open a new stream with its header on
the first encounter of the `(rel_type, source_type, dest_type)` triple,
then write the data row `[source_id, dest_id, rel_type]` taken from the
relationship's `rel_id` (the relationship's own `to_csv_row` is never
consulted). -/
def wr_step (rel_hdr : List Nat → List Nat → List Nat → List (List Nat)) (tmpl : List Nat)
    (st : WRState) (rel : PyRel) : WRState :=
  let rid := rel.rel_id
  let key : RelKey := (rid.rel_type, rid.source_type, rid.dest_type)
  let row := [rid.source_id, rid.dest_id, rid.rel_type]
  match st.files.lookup key with
  | Option.some _ =>
    { st with files := update_file st.files key row,
              written := st.written ++ [row] }
  | Option.none =>
    let fname := replace_sub (codes "EDGE_LABEL") (edge_label rid) tmpl
    let f : OutFile := { sid := st.opened.length, fname := fname,
                         header := rel_hdr rid.rel_type rid.source_type rid.dest_type,
                         data := [row], rows := 1 }
    { st with files := st.files ++ [(key, f)],
              opened := st.opened ++ [st.opened.length],
              written := st.written ++ [row] }

/-- The `try` body of `write_relationships`, which has no abort path. -/
def wr_loop (rel_hdr : List Nat → List Nat → List Nat → List (List Nat)) (tmpl : List Nat) :
    List PyRel → WRState → WRState
  | [], st => st
  | r :: rest, st => wr_loop rel_hdr tmpl rest (wr_step rel_hdr tmpl st r)

/-- `write_relationships` of `build_import.py` lines 101–125.  The
second component is the list of stream ids closed by the `finally`
block. -/
def write_relationships (rel_hdr : List Nat → List Nat → List Nat → List (List Nat))
    (rels : List PyRel) (tmpl : List Nat) : WRState × List Nat :=
  let st := wr_loop rel_hdr tmpl rels wr_init
  (st, st.files.map (fun p => p.2.sid))

/-- The written data-row of one relationship, per the source:
`[rel_id.source_id, rel_id.dest_id, rel_id.rel_type]`. -/
def rel_id_triple (r : PyRel) : List (List Nat) :=
  [r.rel_id.source_id, r.rel_id.dest_id, r.rel_id.rel_type]

theorem wr_step_written (rel_hdr : List Nat → List Nat → List Nat → List (List Nat))
    (tmpl : List Nat) (st : WRState) (r : PyRel) :
    (wr_step rel_hdr tmpl st r).written = st.written ++ [rel_id_triple r] := by
  unfold wr_step rel_id_triple
  dsimp only
  split <;> rfl

theorem wr_loop_written (rel_hdr : List Nat → List Nat → List Nat → List (List Nat))
    (tmpl : List Nat) (rels : List PyRel) (st : WRState) :
    (wr_loop rel_hdr tmpl rels st).written = st.written ++ rels.map rel_id_triple := by
  induction rels generalizing st with
  | nil => simp [wr_loop]
  | cons r rest ih =>
    rw [wr_loop, ih, wr_step_written]
    simp

/-- Claim C4 (amended): every data row emitted by `write_relationships`
is exactly `(source_id, dest_id, rel_type)` taken from the
relationship's `RelId`; in particular the rows appear in input order,
one per relationship, and nothing from `to_csv_row()` is added. -/
theorem c4_rel_rows_are_id_triples
    (rel_hdr : List Nat → List Nat → List Nat → List (List Nat))
    (rels : List PyRel) (tmpl : List Nat) :
    (write_relationships rel_hdr rels tmpl).1.written = rels.map rel_id_triple := by
  unfold write_relationships
  rw [wr_loop_written]
  rfl

/-- Claim C4 (counterexample to the claim as stated): a relationship
whose `to_csv_row()` contributes an extra attribute cell `"extra"` is
written as the bare identity triple; the written row is not the row
`to_csv_row()` produces, so relationship-specific attributes are
dropped. -/
theorem c4_to_csv_row_ignored :
    (write_relationships (fun _ _ _ => [])
        [{ rel_id := { source_type := codes "A", source_id := codes "s",
                       rel_type := codes "knows", dest_type := codes "B",
                       dest_id := codes "d" },
           csv_row := [Cell.str (codes "s"), Cell.str (codes "d"),
                       Cell.str (codes "knows"), Cell.str (codes "extra")] }]
        (codes "edges-EDGE_LABEL.csv")).1.written =
      [[codes "s", codes "d", codes "knows"]] ∧
    List.map transform_cell
        [Cell.str (codes "s"), Cell.str (codes "d"),
         Cell.str (codes "knows"), Cell.str (codes "extra")] =
      [codes "s", codes "d", codes "knows", codes "extra"] ∧
    [[codes "s", codes "d", codes "knows"]] ≠
      [[codes "s", codes "d", codes "knows", codes "extra"]] := by
  refine ⟨by decide, by decide, by decide⟩

/-- The disallowed characters as the claim words them: newline, carriage
return, or another non-printable control character (the ASCII control
range and DEL), tab excluded since it has its own rule. -/
def claim_disallowed (c : Nat) : Prop :=
  c = 10 ∨ c = 13 ∨ (c < 32 ∧ c ≠ 9) ∨ c = 127

instance : DecidablePred claim_disallowed := fun c =>
  inferInstanceAs (Decidable (c = 10 ∨ c = 13 ∨ (c < 32 ∧ c ≠ 9) ∨ c = 127))

/-- The per-character substitution as the claim words it: tab becomes a
single space, every other disallowed character becomes the middle dot
(code point 183), and everything else is unchanged. -/
def claim_subst (c : Nat) : Nat :=
  if c = 9 then 32 else if claim_disallowed c then 183 else c

theorem xlate_eq_claim_subst (c : Nat) : xlate c = claim_subst c := by
  simp only [xlate, claim_subst, nonprintable, claim_disallowed]
  split_ifs <;> omega

theorem xlate_not_disallowed (c : Nat) : ¬ claim_disallowed (xlate c) ∧ xlate c ≠ 9 := by
  simp only [xlate, claim_disallowed, nonprintable]
  split_ifs <;> omega

/-- Claim C6: the string cells `write_nodes` writes pass through
`cleanup_text`; the result of `cleanup_text` performs exactly the
claimed substitution (tab to a single space, every other disallowed
character to the middle dot, everything else — in particular printable
ASCII — unchanged) and therefore contains no newline, carriage return,
tab or other non-printable control character. -/
theorem c6_cleanup_text_sanitizes (s : List Nat) :
    transform_cell (Cell.str s) = cleanup_text s ∧
    cleanup_text s = s.map claim_subst ∧
    (cleanup_text s).all
      (fun c => !(decide (claim_disallowed c)) && !(decide (c = 9))) = true := by
  refine ⟨rfl, List.map_congr_left (fun c _ => xlate_eq_claim_subst c), ?_⟩
  rw [cleanup_text, List.all_map, List.all_eq_true]
  intro c _
  have h := xlate_not_disallowed c
  simp [h.1, h.2]

/-- The per-character substitution of `cleanup_id` as the claim words
it: spaces and tabs are deleted outright (not substituted), while the
other disallowed characters are still replaced by the middle dot. -/
def claim_id_subst (c : Nat) : List Nat :=
  if c = 32 ∨ c = 9 then [] else if claim_disallowed c then [183] else [c]

theorem xlate_ids_eq_claim_id_subst (c : Nat) : xlate_ids c = claim_id_subst c := by
  simp only [xlate_ids, claim_id_subst, nonprintable, claim_disallowed]
  split_ifs <;> first | rfl | omega

theorem xlate_ids_no_space_tab (c d : Nat) (h : c ∈ xlate_ids d) : c ≠ 32 ∧ c ≠ 9 := by
  simp only [xlate_ids] at h
  split_ifs at h <;> simp at h <;> omega

/-- Claim C7 (amended): `cleanup_id` deletes every space and tab
outright (its result contains neither) and performs the middle-dot
substitution on the other disallowed characters, leaving the rest
unchanged — but `write_nodes` does not invoke it: the string cells it
writes, identity-bearing ones included, pass through `cleanup_text`. -/
theorem c7_cleanup_id_removes_spaces_and_tabs (s : List Nat) :
    cleanup_id s = s.flatMap claim_id_subst ∧
    (cleanup_id s).all (fun c => !(decide (c = 32)) && !(decide (c = 9))) = true ∧
    transform_cell (Cell.str s) = cleanup_text s := by
  refine ⟨?_, ?_, rfl⟩
  · unfold cleanup_id
    exact List.flatMap_congr (fun c _ => xlate_ids_eq_claim_id_subst c)
  · rw [List.all_eq_true]
    intro c hc
    rw [cleanup_id, List.mem_flatMap] at hc
    obtain ⟨d, _, hd⟩ := hc
    have h := xlate_ids_no_space_tab c d hd
    simp [h.1, h.2]

/-- Claim C7 (counterexample to the claim as stated): a node whose id
cell is `"a b"` (an identity-bearing cell of its row) is written by
`write_nodes` with the embedded space intact — `cleanup_text` keeps
spaces — whereas removing spaces entirely, as the claim demands and as
`cleanup_id` would do, would have produced `"ab"`. -/
theorem c7_write_nodes_keeps_spaces_in_ids :
    (write_nodes (fun _ => [])
        [{ node_type := codes "T", node_id := codes "a b", attrs := [], required := [],
           csv_row := [Cell.str (codes "a b")] }]
        (codes "nodes-NODE_LABEL.csv")).2.1.written = [[codes "a b"]] ∧
    32 ∈ codes "a b" ∧
    cleanup_id (codes "a b") = codes "ab" := by
  refine ⟨by decide, by decide, by decide⟩

theorem update_file_sids {κ : Type} [DecidableEq κ] (files : List (κ × OutFile)) (k : κ)
    (row : List (List Nat)) :
    (update_file files k row).map (fun p => p.2.sid) = files.map (fun p => p.2.sid) := by
  unfold update_file
  rw [List.map_map]
  refine List.map_congr_left (fun p _ => ?_)
  by_cases h : p.1 = k <;> simp [h, add_row]

/-- The resource invariant of a writer run: the stream ids held by the
`output_files` dictionary are exactly the ids opened so far, in order,
and the opened ids are pairwise distinct (they are `0, 1, 2, ...`). -/
def files_inv {κ : Type} (files : List (κ × OutFile)) (opened : List Nat) : Prop :=
  files.map (fun p => p.2.sid) = opened ∧ opened = List.range opened.length

theorem files_inv_init {κ : Type} : files_inv ([] : List (κ × OutFile)) [] := by
  constructor <;> rfl

theorem files_inv_open {κ : Type} (files : List (κ × OutFile)) (opened : List Nat)
    (h : files_inv files opened) (k : κ) (f : OutFile) (hs : f.sid = opened.length) :
    files_inv (files ++ [(k, f)]) (opened ++ [opened.length]) := by
  obtain ⟨h1, h2⟩ := h
  constructor
  · simp [h1, hs]
  · rw [List.length_append, List.length_singleton, List.range_succ]
    rw [h2] at h1 ⊢
    simp

theorem wn_step_inv (node_hdr : List Nat → List (List Nat)) (tmpl : List Nat)
    (st : WNState) (node : PyNode) (h : files_inv st.files st.opened) :
    files_inv (wn_step node_hdr tmpl st node).files (wn_step node_hdr tmpl st node).opened := by
  unfold wn_step
  dsimp only
  split
  · exact ⟨(update_file_sids st.files node.node_type _).trans h.1, h.2⟩
  · exact files_inv_open st.files st.opened h node.node_type _ rfl

theorem wn_loop_inv (node_hdr : List Nat → List (List Nat)) (tmpl : List Nat)
    (nodes : List PyNode) (st : WNState) (h : files_inv st.files st.opened) :
    files_inv (wn_loop node_hdr tmpl nodes st).2.files (wn_loop node_hdr tmpl nodes st).2.opened := by
  induction nodes generalizing st with
  | nil => exact h
  | cons n rest ih =>
    rw [wn_loop]
    split
    · exact h
    · exact ih _ (wn_step_inv node_hdr tmpl st n h)

theorem wr_step_inv (rel_hdr : List Nat → List Nat → List Nat → List (List Nat)) (tmpl : List Nat)
    (st : WRState) (rel : PyRel) (h : files_inv st.files st.opened) :
    files_inv (wr_step rel_hdr tmpl st rel).files (wr_step rel_hdr tmpl st rel).opened := by
  unfold wr_step
  dsimp only
  split
  · exact ⟨(update_file_sids st.files _ _).trans h.1, h.2⟩
  · exact files_inv_open st.files st.opened h _ _ rfl

theorem wr_loop_inv (rel_hdr : List Nat → List Nat → List Nat → List (List Nat)) (tmpl : List Nat)
    (rels : List PyRel) (st : WRState) (h : files_inv st.files st.opened) :
    files_inv (wr_loop rel_hdr tmpl rels st).files (wr_loop rel_hdr tmpl rels st).opened := by
  induction rels generalizing st with
  | nil => exact h
  | cons r rest ih =>
    rw [wr_loop]
    exact ih _ (wr_step_inv rel_hdr tmpl st r h)

/-- Claim C9: for every execution of `write_nodes` or
`write_relationships` — including the executions of `write_nodes` that
abort mid-way on the newline assertion, since `wn_loop` returns the
partial state together with the error and the `finally` block closes
from that state — the list of stream ids closed by the `finally` block
is exactly the list of stream ids opened, in order and without
duplicates: every opened stream is closed exactly once. -/
theorem c9_streams_closed_once (node_hdr : List Nat → List (List Nat))
    (nodes : List PyNode) (tmpl : List Nat)
    (rel_hdr : List Nat → List Nat → List Nat → List (List Nat))
    (rels : List PyRel) (rtmpl : List Nat) :
    ((write_nodes node_hdr nodes tmpl).2.2 = (write_nodes node_hdr nodes tmpl).2.1.opened ∧
      List.Nodup (write_nodes node_hdr nodes tmpl).2.2) ∧
    ((write_relationships rel_hdr rels rtmpl).2 =
        (write_relationships rel_hdr rels rtmpl).1.opened ∧
      List.Nodup (write_relationships rel_hdr rels rtmpl).2) := by
  have hn := wn_loop_inv node_hdr tmpl nodes wn_init files_inv_init
  have hr := wr_loop_inv rel_hdr rtmpl rels wr_init files_inv_init
  constructor
  · refine ⟨hn.1, ?_⟩
    rw [show (write_nodes node_hdr nodes tmpl).2.2 =
          (wn_loop node_hdr tmpl nodes wn_init).2.files.map (fun p => p.2.sid) from rfl,
        hn.1, hn.2]
    exact List.nodup_range _
  · refine ⟨hr.1, ?_⟩
    rw [show (write_relationships rel_hdr rels rtmpl).2 =
          (wr_loop rel_hdr rtmpl rels wr_init).files.map (fun p => p.2.sid) from rfl,
        hr.1, hr.2]
    exact List.nodup_range _

/-- Python string comparison on code-point lists, used by the sort keys
of `build_import.run` lines 170–172. -/
def cmp_str : List Nat → List Nat → Ordering
  | [], [] => Ordering.eq
  | [], _ :: _ => Ordering.lt
  | _ :: _, [] => Ordering.gt
  | x :: xs, y :: ys =>
    if x < y then Ordering.lt else if y < x then Ordering.gt else cmp_str xs ys

/-- Python tuple comparison on a list of string fields. -/
def cmp_key : List (List Nat) → List (List Nat) → Ordering
  | [], [] => Ordering.eq
  | [], _ :: _ => Ordering.lt
  | _ :: _, [] => Ordering.gt
  | x :: xs, y :: ys =>
    match cmp_str x y with
    | Ordering.lt => Ordering.lt
    | Ordering.gt => Ordering.gt
    | Ordering.eq => cmp_key xs ys

/-- The node sort key of `build_import.run` line 171:
`(n.get_node_type(), n.get_node_id())`. -/
def node_sort_le (a b : PyNode) : Bool :=
  match cmp_key [a.node_type, a.node_id] [b.node_type, b.node_id] with
  | Ordering.gt => false
  | _ => true

/-- The relationship sort key of `build_import.run` line 172: the
`RelId` tuple in its field order. -/
def rel_sort_le (a b : PyRel) : Bool :=
  match cmp_key
      [a.rel_id.source_type, a.rel_id.source_id, a.rel_id.rel_type,
       a.rel_id.dest_type, a.rel_id.dest_id]
      [b.rel_id.source_type, b.rel_id.source_id, b.rel_id.rel_type,
       b.rel_id.dest_type, b.rel_id.dest_id] with
  | Ordering.gt => false
  | _ => true

/-- `nodes.sort(key=...)` of `build_import.run` line 171 (a stable sort
by the `(type, id)` key). -/
def sort_nodes (nodes : List PyNode) : List PyNode :=
  List.insertionSort (fun a b => node_sort_le a b = true) nodes

/-- `relationships.sort(key=...)` of `build_import.run` line 172. -/
def sort_rels (rels : List PyRel) : List PyRel :=
  List.insertionSort (fun a b => rel_sort_le a b = true) rels

/-- The parsed command-line options consumed by `run`
(`build_import.add_command_args`, lines 131–149). -/
structure Args where
  output_node_files : List Nat
  output_edge_files : List Nat
  sorted : Bool
deriving Repr

/-- `run` of `build_import.py` lines 152–178.  The `abspath` calls are
filesystem path normalization and are modelled as the identity; the
`exists(dirname(...))` checks are filesystem queries and are modelled by
the two boolean parameters.  The four configuration failures raise a
plain `Exception`.  After `map_and_reduce` and the optional sort, `run`
calls `write_nodes` and then `write_relationships`; it never invokes
`Node.validate` on any node.  On success it returns the writer states
(the source returns `0` after printing the timing). -/
def run (node_dir_exists edge_dir_exists : Bool) (args : Args)
    (nreduce : PyNode → PyNode → Except PyErr PyNode)
    (inputs : List (List PyNode × List PyRel))
    (node_hdr : List Nat → List (List Nat))
    (rel_hdr : List Nat → List Nat → List Nat → List (List Nat)) :
    Except PyErr (WNState × WRState) :=
  if contains_sub (codes "NODE_LABEL") args.output_node_files = false then
    Except.error PyErr.exception
  else if contains_sub (codes "EDGE_LABEL") args.output_edge_files = false then
    Except.error PyErr.exception
  else if node_dir_exists = false then Except.error PyErr.exception
  else if edge_dir_exists = false then Except.error PyErr.exception
  else
    match map_and_reduce nreduce inputs with
    | Except.error e => Except.error e
    | Except.ok (nodes, rels) =>
      let nodes2 := if args.sorted then sort_nodes nodes else nodes
      let rels2 := if args.sorted then sort_rels rels else rels
      match write_nodes node_hdr nodes2 args.output_node_files with
      | (Except.error e, _, _) => Except.error e
      | (Except.ok _, wn, _) =>
        Except.ok (wn, (write_relationships rel_hdr rels2 args.output_edge_files).1)

/-- Whether a result is a raised `ValidationError` naming the given
entity id and type. -/
def names_validation_error (e : Except PyErr Unit) (nid ntype : List Nat) : Bool :=
  match e with
  | Except.error (PyErr.validationError i t _) => i = nid && t = ntype
  | _ => false

theorem validate_attrs_reports_missing (n : PyNode) (req : List (List Nat)) (a : List Nat)
    (ha : a ∈ req)
    (hv : get_attr n a = PyVal.none ∨ get_attr n a = PyVal.str []) :
    names_validation_error (validate_attrs n req) n.node_id n.node_type = true := by
  induction req with
  | nil => cases ha
  | cons hd tl ih =>
    by_cases h : get_attr n hd = PyVal.none ∨ get_attr n hd = PyVal.str []
    · simp [validate_attrs, h, names_validation_error]
    · rcases List.mem_cons.mp ha with rfl | hmem
      · exact absurd hv h
      · simpa [validate_attrs, h] using ih hmem

/-- Claim C3 (amended): `Node.validate`, when invoked, raises
`ValidationError` naming the entity id and type whenever some declared
required attribute is absent (`None`) or empty after merging — but the
orchestrator `run` never invokes validation, so no such check guards
the write phase. -/
theorem c3_node_validate_reports_missing (n : PyNode) (a : List Nat)
    (ha : a ∈ n.required)
    (hv : get_attr n a = PyVal.none ∨ get_attr n a = PyVal.str []) :
    names_validation_error (node_validate n) n.node_id n.node_type = true :=
  validate_attrs_reports_missing n n.required a ha hv

/-- Instantiation of `c3_node_validate_reports_missing` at a concrete
node whose required attribute `name` is `None`. -/
theorem c3_node_validate_reports_missing_witness :
    names_validation_error
      (node_validate
        { node_type := codes "T", node_id := codes "n1",
          attrs := [(codes "name", PyVal.none)], required := [codes "name"],
          csv_row := [Cell.str (codes "n1")] })
      (codes "n1") (codes "T") = true :=
  c3_node_validate_reports_missing _ (codes "name") (by decide) (by decide)

/-- Claim C3 (counterexample to the claim as stated): a run whose single
merged node declares required attribute `name` with value `None` — a
node on which `Node.validate` raises `ValidationError` — completes
successfully and writes the node's output row: `run` performs no
validation before writing. -/
theorem c3_run_writes_despite_invalid_node :
    node_validate
        { node_type := codes "T", node_id := codes "n1",
          attrs := [(codes "name", PyVal.none)], required := [codes "name"],
          csv_row := [Cell.str (codes "n1")] } =
      Except.error (PyErr.validationError (codes "n1") (codes "T") (codes "name")) ∧
    run true true
        { output_node_files := codes "nodes-NODE_LABEL.csv",
          output_edge_files := codes "edges-EDGE_LABEL.csv", sorted := false }
        (fun a _ => Except.ok a)
        [([{ node_type := codes "T", node_id := codes "n1",
             attrs := [(codes "name", PyVal.none)], required := [codes "name"],
             csv_row := [Cell.str (codes "n1")] }], [])]
        (fun _ => []) (fun _ _ _ => []) =
      Except.ok
        ({ files := [(codes "T",
             { sid := 0, fname := codes "nodes-T.csv", header := [],
               data := [[codes "n1"]], rows := 1 })],
           opened := [0], written := [[codes "n1"]] },
         { files := [], opened := [], written := [] }) := by
  refine ⟨rfl, rfl⟩
